import Mathlib

/-!
Verification of the semantic retrieval engine of the telegram_ai repository.

The embedding models `src/vector_store.py` (class VectorStore: load_data and
search over a chromadb collection), `src/config.py` (TOP_K_RESULTS) and
`src/google_sheets.py` (class GoogleSheetsLoader: load_from_sheet with its
tenacity retry decorator).  The chromadb collection is modelled as a list of
stored entries; the embedding backend is abstracted into a distance function
`dist : String → String → ℚ` giving the distance between the embedding of a
query text and the embedding of a stored document, and external failures
(embedding or storage errors raised inside a chromadb call) are modelled by
Boolean flags, since the Python code only observes them as exceptions.
-/

/-- One corpus entry: a row of the DataFrame produced by the corpus loader,
with columns question and answer. -/
structure QAPair where
  question : String
  answer : String
deriving DecidableEq

/-- One item stored in the chroma collection: its id (doc_i), the embedded
document (the question text passed as documents) and the metadata payload
(the answer). -/
structure Entry where
  id : String
  document : String
  answer : String
deriving DecidableEq

/-- One element of the list built by VectorStore.search: the dict with keys
question, answer and relevance_score. -/
structure QueryResult where
  question : String
  answer : String
  relevance_score : ℚ
deriving DecidableEq

namespace VectorStore

/-- config.TOP_K_RESULTS from src/config.py. -/
def TOP_K_RESULTS : Nat := 3

/-- Embeds VectorStore.load_data (src/vector_store.py).  The body first runs
collection.delete(where={}), clearing the existing data, then builds
documents, metadatas and ids (doc_0, doc_1, ...) and runs collection.add.
The add call goes to the external embedding/storage backend and may raise;
that failure is modelled by the flag addFails.  load_data re-raises any
exception, so the result is the collection state after the call paired with
an optional error. -/
def load_data (addFails : Bool) (coll : List Entry) (df : List QAPair) :
    List Entry × Option String :=
  let cleared : List Entry := []
  if addFails then
    (cleared, some "add failed")
  else
    ((df.enum.map fun p => Entry.mk ("doc_" ++ toString p.1) p.2.question p.2.answer),
      none)

/-- The effective n_results after the line
n_results = n_results or config.TOP_K_RESULTS: Python treats both None (the
default) and 0 as falsy, so both are replaced by TOP_K_RESULTS. -/
def effectiveN (n_results : Option Nat) : Nat :=
  match n_results with
  | none => TOP_K_RESULTS
  | some 0 => TOP_K_RESULTS
  | some k => k

/-- Comparison of stored items by their distance to the query, the order in
which the collection query returns its hits (smallest distance first). -/
def distLE (a b : Entry × ℚ) : Prop := a.2 ≤ b.2

instance : DecidableRel distLE := fun a b => inferInstanceAs (Decidable (a.2 ≤ b.2))

instance : IsTotal (Entry × ℚ) distLE := ⟨fun a b => le_total a.2 b.2⟩

instance : IsTrans (Entry × ℚ) distLE := ⟨fun _ _ _ h1 h2 => le_trans h1 h2⟩

/-- Modelled from the spec: chromadb collection.query is not part of this
repository; per the spec it retrieves the top_k nearest items by the
configured distance metric, best (smallest distance) first, and returns all
available items when top_k exceeds the collection size.  The tie order is
implementation-defined but deterministic; a stable sort over the collection
order fixes it. -/
def collectionQuery (dist : String → String → ℚ) (coll : List Entry)
    (text : String) (k : Nat) : List (Entry × ℚ) :=
  ((List.insertionSort distLE (coll.map fun e => (e, dist text e.document))).take k)

/-- Embeds VectorStore.search (src/vector_store.py): defaults n_results via
the falsy-or, runs collection.query, and formats every hit as a dict with
relevance_score = 1 - distance.  The surrounding try/except returns the
empty list on any internal failure (modelled by the flag fail).  The method
issues no mutating call, so the collection is returned unchanged alongside
the result list. -/
def search (fail : Bool) (dist : String → String → ℚ) (coll : List Entry)
    (query : String) (n_results : Option Nat) : List QueryResult × List Entry :=
  if fail then
    ([], coll)
  else
    ((collectionQuery dist coll query (effectiveN n_results)).map
      fun p => QueryResult.mk p.1.document p.1.answer (1 - p.2), coll)

end VectorStore

namespace GoogleSheetsLoader

/-- The two distinguishable failures of the loader: an HttpError from the
Sheets API and the ValueError for missing required columns. -/
inductive SheetError where
  | http (msg : String)
  | missingColumns (missing : List String)
deriving DecidableEq

/-- required_columns from GoogleSheetsLoader.load_from_sheet. -/
def required_columns : List String := ["question", "answer"]

/-- Embeds one attempt body of GoogleSheetsLoader.load_from_sheet
(src/google_sheets.py) after the fetch: an empty values list returns an
empty DataFrame with columns question/answer; otherwise the first fetched
row is the header and the rest are data rows; a missing required column
raises ValueError; on success the projection df[[question, answer]] returns
the two columns in row order.  pandas pads a short row with NaN, modelled
here as the empty string. -/
def attemptBody (values : List (List String)) : Except SheetError (List QAPair) :=
  match values with
  | [] => .ok []
  | header :: rows =>
    if "question" ∈ header ∧ "answer" ∈ header then
      .ok (rows.map fun r =>
        QAPair.mk (r.getD (header.indexOf "question") "")
          (r.getD (header.indexOf "answer") ""))
    else
      .error (.missingColumns (required_columns.filter fun c => decide (c ∉ header)))

/-- One attempt of load_from_sheet: the spreadsheet fetch against the
external Google API (attempt number i) may raise HttpError, modelled by the
fetch argument returning an error; otherwise the body processes the fetched
values. -/
def sheetAttempt (fetch : Nat → Except SheetError (List (List String)))
    (i : Nat) : Except SheetError (List QAPair) :=
  match fetch i with
  | .error e => .error e
  | .ok values => attemptBody values

/-- Embeds load_from_sheet with its tenacity decorator
retry(stop=stop_after_attempt(3), wait=wait_exponential(...)): the attempt is
retried on any exception up to three times; after the third failure the last
error escapes the retry loop (tenacity wraps it in a RetryError carrying it;
the wrapper is immaterial to the contract and the carried error is
returned). -/
def load_from_sheet (fetch : Nat → Except SheetError (List (List String))) :
    Except SheetError (List QAPair) :=
  match sheetAttempt fetch 0 with
  | .ok r => .ok r
  | .error _ =>
    match sheetAttempt fetch 1 with
    | .ok r => .ok r
    | .error _ => sheetAttempt fetch 2

end GoogleSheetsLoader

section Claims

open VectorStore GoogleSheetsLoader

/-- Distance oracle used in concrete instances: every stored question is at
distance 0 from every query. -/
def dzero : String → String → ℚ := fun _ _ => 0

/-- A one-entry collection standing for a previously indexed generation. -/
def prevGen : List Entry :=
  [Entry.mk "doc_0" "What is your return policy?" "30 days"]

/-- Searching an empty collection formats an empty hit list, and the failure
branch returns the empty list directly. -/
theorem search_nil (fail : Bool) (dist : String → String → ℚ) (t : String)
    (k : Option Nat) : (search fail dist [] t k).1 = [] := by
  cases fail
  · simp [search, collectionQuery]
  · rfl

/-- A positive n_results is not falsy, so the or-default keeps it. -/
theorem effectiveN_pos (k : Nat) (hk : 1 ≤ k) : effectiveN (some k) = k := by
  cases k with
  | zero => exact absurd hk (by decide)
  | succ n => rfl

/-- C1 counterexample: with a previously indexed generation in place, a
load_data call whose add step fails leaves the collection cleared, and a
subsequent query returns nothing, while the prior generation would have
returned a result.  The claim that the previous generation remains intact
and queryable is therefore false. -/
theorem claim1_cex :
    (load_data true prevGen [QAPair.mk "q" "a"]).2.isSome = true ∧
    (load_data true prevGen [QAPair.mk "q" "a"]).1.length = 0 ∧
    (search false dzero (load_data true prevGen [QAPair.mk "q" "a"]).1
      "What is your return policy?" (some 1)).1.length = 0 ∧
    (search false dzero prevGen "What is your return policy?" (some 1)).1.length = 1 := by
  refine ⟨rfl, rfl, rfl, ?_⟩
  decide

/-- C1 amended: load_data is clear-then-fill.  It clears the collection
before inserting, so when the add step fails the error propagates and the
collection is left empty rather than holding the previous generation; every
subsequent query over the resulting collection returns the empty list. -/
theorem claim1_clear_then_fill (coll : List Entry) (df : List QAPair) :
    (load_data true coll df).1 = [] ∧
    (load_data true coll df).2 = some "add failed" ∧
    ∀ fail dist t k, (search fail dist (load_data true coll df).1 t k).1 = [] := by
  exact ⟨rfl, rfl, fun fail dist t k => search_nil fail dist t k⟩

/-- C2 counterexample: on a one-entry collection, search with n_results = 0
returns one result, not min 0 1 = 0, because Python replaces the falsy 0
with the default TOP_K_RESULTS. -/
theorem claim2_cex :
    ¬ ((search false dzero prevGen "x" (some 0)).1.length = min 0 prevGen.length) := by
  decide

/-- C2 amended: for every requested k at least 1, search returns exactly
min k n results on a collection of size n (in particular all available items
when k exceeds the collection size); a requested k = 0 is treated as unset
and replaced by the default, yielding min TOP_K_RESULTS n results. -/
theorem claim2_top_k_bound (dist : String → String → ℚ) (coll : List Entry)
    (t : String) (k : Nat) (hk : 1 ≤ k) :
    (search false dist coll t (some k)).1.length = min k coll.length ∧
    (search false dist coll t (some 0)).1.length = min TOP_K_RESULTS coll.length := by
  constructor
  · simp [search, collectionQuery, effectiveN_pos k hk, List.length_take,
      List.length_insertionSort]
  · simp [search, collectionQuery, effectiveN, List.length_take,
      List.length_insertionSort]

/-- C2 witness: the amended bound evaluated on the one-entry collection with
k = 2, where it returns the single available item. -/
theorem claim2_top_k_bound_witness :
    1 ≤ 2 ∧
    ((search false dzero prevGen "x" (some 2)).1.length = min 2 prevGen.length ∧
     (search false dzero prevGen "x" (some 0)).1.length = min TOP_K_RESULTS prevGen.length) :=
  ⟨by decide, claim2_top_k_bound dzero prevGen "x" 2 (by decide)⟩

/-- C3 confirmed: when an internal failure occurs during search, the
try/except returns the empty list for every input, indistinguishable from a
successful search over an empty collection. -/
theorem claim3_failure_empty (dist : String → String → ℚ) (coll : List Entry)
    (t : String) (k : Option Nat) :
    (search true dist coll t k).1 = [] ∧
    (search true dist coll t k).1 = (search false dist [] t k).1 :=
  ⟨rfl, (search_nil false dist t k).symm⟩

/-- C4 confirmed: load_data on the empty corpus succeeds with no error and
leaves an empty collection, and every subsequent query over that collection
returns the empty list. -/
theorem claim4_empty_corpus (coll : List Entry) :
    load_data false coll [] = ([], none) ∧
    ∀ fail dist t k, (search fail dist (load_data false coll []).1 t k).1 = [] :=
  ⟨rfl, fun fail dist t k => search_nil fail dist t k⟩

/-- C8 confirmed: search never mutates the collection; on every input,
including the internal-failure branch, the collection after the call equals
the collection before it. -/
theorem claim8_read_only (fail : Bool) (dist : String → String → ℚ)
    (coll : List Entry) (t : String) (k : Option Nat) :
    (search fail dist coll t k).2 = coll := by
  cases fail <;> rfl

/-- C10 confirmed: TOP_K_RESULTS is 3, and search called with n_results
omitted (None) or 0 behaves exactly like search with n_results = 3, hence
returns min 3 n results on a collection of size n. -/
theorem claim10_default_top_k :
    TOP_K_RESULTS = 3 ∧
    ∀ (fail : Bool) (dist : String → String → ℚ) (coll : List Entry) (t : String),
      search fail dist coll t none = search fail dist coll t (some 3) ∧
      search fail dist coll t (some 0) = search fail dist coll t (some 3) ∧
      (search false dist coll t none).1.length = min 3 coll.length := by
  refine ⟨rfl, fun fail dist coll t => ⟨?_, ?_, ?_⟩⟩
  · cases fail <;> rfl
  · cases fail <;> rfl
  · simp [search, collectionQuery, effectiveN, TOP_K_RESULTS, List.length_take,
      List.length_insertionSort]

/-- C5 confirmed: the hit list comes back from the collection ordered by
non-decreasing distance, so after the 1 - distance conversion the returned
relevance scores are non-increasing from the first result to the last. -/
theorem claim5_sorted (dist : String → String → ℚ) (coll : List Entry)
    (t : String) (k : Option Nat) :
    List.Sorted (fun a b : QueryResult => b.relevance_score ≤ a.relevance_score)
      (search false dist coll t k).1 := by
  have hs : List.Sorted distLE
      (List.insertionSort distLE (coll.map fun e => (e, dist t e.document))) :=
    List.sorted_insertionSort distLE _
  have ht : (collectionQuery dist coll t (effectiveN k)).Pairwise distLE :=
    List.Pairwise.sublist (List.take_sublist _ _) hs
  show List.Sorted _ ((collectionQuery dist coll t (effectiveN k)).map
      fun p => QueryResult.mk p.1.document p.1.answer (1 - p.2))
  unfold List.Sorted
  rw [List.pairwise_map]
  exact ht.imp fun h => sub_le_sub_left h 1

/-- C6 confirmed: every returned result carries
relevance_score = 1 - distance, where distance is the value the collection
reports for that item, namely the distance between the query embedding and
the embedding of the returned question; no clamping is applied. -/
theorem claim6_score (dist : String → String → ℚ) (coll : List Entry)
    (t : String) (k : Option Nat) (r : QueryResult)
    (hr : r ∈ (search false dist coll t k).1) :
    r.relevance_score = 1 - dist t r.question := by
  have hr2 : r ∈ (collectionQuery dist coll t (effectiveN k)).map
      (fun p => QueryResult.mk p.1.document p.1.answer (1 - p.2)) := hr
  obtain ⟨p, hp, rfl⟩ := List.mem_map.mp hr2
  have hp2 : p ∈ List.insertionSort distLE (coll.map fun e => (e, dist t e.document)) :=
    List.mem_of_mem_take hp
  rw [List.mem_insertionSort] at hp2
  obtain ⟨e, _, rfl⟩ := List.mem_map.mp hp2
  rfl

/-- C6 witness: on the one-entry collection at distance 0 the single result
has relevance score 1 - 0. -/
theorem claim6_score_witness :
    QueryResult.mk "What is your return policy?" "30 days"
        (1 - dzero "x" "What is your return policy?")
      ∈ (search false dzero prevGen "x" (some 1)).1 ∧
    (QueryResult.mk "What is your return policy?" "30 days"
        (1 - dzero "x" "What is your return policy?")).relevance_score
      = 1 - dzero "x" "What is your return policy?" := by
  have hmem : QueryResult.mk "What is your return policy?" "30 days"
        (1 - dzero "x" "What is your return policy?")
      ∈ (search false dzero prevGen "x" (some 1)).1 := List.Mem.head _
  exact ⟨hmem, claim6_score dzero prevGen "x" (some 1) _ hmem⟩

/-- C7 confirmed: search is a pure function of its arguments and the
collection state, so two calls with identical arguments and no intervening
reindex return identical ordered results; moreover the tie-break is the
stable one: when the collection order already agrees with the distance
order (in particular when all distances are tied), the results come back in
collection order. -/
theorem claim7_determinism (dist : String → String → ℚ) (coll : List Entry)
    (t : String) (k : Option Nat) :
    search false dist coll t k = search false dist coll t k ∧
    (coll.Pairwise (fun a b => dist t a.document ≤ dist t b.document) →
      (search false dist coll t k).1 = (coll.take (effectiveN k)).map
        fun e => QueryResult.mk e.document e.answer (1 - dist t e.document)) := by
  refine ⟨rfl, fun hsorted => ?_⟩
  have hp : (coll.map fun e => (e, dist t e.document)).Pairwise distLE := by
    rw [List.pairwise_map]
    exact hsorted
  have heq : List.insertionSort distLE (coll.map fun e => (e, dist t e.document))
      = coll.map fun e => (e, dist t e.document) :=
    List.Sorted.insertionSort_eq hp
  show (collectionQuery dist coll t (effectiveN k)).map
      (fun p => QueryResult.mk p.1.document p.1.answer (1 - p.2)) = _
  simp only [collectionQuery]
  rw [heq, ← List.map_take, List.map_map]
  rfl

/-- A two-entry collection used to exercise the tie-break. -/
def demoGen : List Entry :=
  [Entry.mk "doc_0" "q0" "a0", Entry.mk "doc_1" "q1" "a1"]

/-- C7 witness: with both entries at distance 0 the two results come back in
collection order. -/
theorem claim7_determinism_witness :
    demoGen.Pairwise (fun a b => dzero "x" a.document ≤ dzero "x" b.document) ∧
    (search false dzero demoGen "x" (some 3)).1 = (demoGen.take (effectiveN (some 3))).map
      (fun e => QueryResult.mk e.document e.answer (1 - dzero "x" e.document)) :=
  ⟨by decide, (claim7_determinism dzero demoGen "x" (some 3)).2 (by decide)⟩

/-- C9 counterexample: an entirely empty fetched table lacks both required
columns, yet load_from_sheet succeeds with an empty pair sequence instead of
raising a distinguishable error. -/
theorem claim9_cex :
    load_from_sheet (fun _ => Except.ok []) = Except.ok ([] : List QAPair) := rfl

/-- C9 amended: load_from_sheet raises a distinguishable error whenever the
source is unreachable on all three attempts of its retry budget (the last
error escapes) or the fetched table is non-empty and its header lacks a
required column (question or answer); an entirely empty fetch instead
succeeds with an empty pair sequence; on success it returns exactly the
question and answer columns of the data rows, in row order. -/
theorem claim9_loader :
    (∀ (fetch : Nat → Except SheetError (List (List String))) (e0 e1 e2 : SheetError),
      sheetAttempt fetch 0 = .error e0 → sheetAttempt fetch 1 = .error e1 →
      sheetAttempt fetch 2 = .error e2 → load_from_sheet fetch = .error e2) ∧
    (∀ (header : List String) (rows : List (List String)),
      ¬ ("question" ∈ header ∧ "answer" ∈ header) →
      ∃ m, m ≠ [] ∧
        load_from_sheet (fun _ => .ok (header :: rows))
          = .error (.missingColumns m)) ∧
    (∀ (header : List String) (rows : List (List String)),
      "question" ∈ header → "answer" ∈ header →
      load_from_sheet (fun _ => .ok (header :: rows)) = .ok (rows.map fun r =>
        QAPair.mk (r.getD (header.indexOf "question") "")
          (r.getD (header.indexOf "answer") ""))) := by
  refine ⟨?_, ?_, ?_⟩
  · intro fetch e0 e1 e2 h0 h1 h2
    simp [load_from_sheet, h0, h1, h2]
  · intro header rows hmiss
    refine ⟨required_columns.filter fun c => decide (c ∉ header), ?_, ?_⟩
    · intro hnil
      have h := List.filter_eq_nil_iff.mp hnil
      have hq := h "question" (by simp [required_columns])
      have ha := h "answer" (by simp [required_columns])
      simp only [decide_eq_true_eq, not_not] at hq ha
      exact hmiss ⟨hq, ha⟩
    · simp [load_from_sheet, sheetAttempt, attemptBody, hmiss]
  · intro header rows hq ha
    simp [load_from_sheet, sheetAttempt, attemptBody, hq, ha]

/-- C9 witness: the three amended clauses evaluated at concrete inputs: a
source that is down on all three attempts, a non-empty table whose header
lacks the answer column, and a well-formed two-column table. -/
theorem claim9_loader_witness :
    load_from_sheet (fun _ => Except.error (SheetError.http "down"))
      = Except.error (SheetError.http "down") ∧
    (∃ m, m ≠ [] ∧ load_from_sheet (fun _ => Except.ok [["id", "question"], ["1", "q1"]])
      = Except.error (SheetError.missingColumns m)) ∧
    load_from_sheet (fun _ => Except.ok [["question", "answer"], ["q1", "a1"]])
      = Except.ok ([["q1", "a1"]].map fun r =>
          QAPair.mk (r.getD (["question", "answer"].indexOf "question") "")
            (r.getD (["question", "answer"].indexOf "answer") "")) :=
  ⟨claim9_loader.1 _ _ _ _ rfl rfl rfl,
   claim9_loader.2.1 ["id", "question"] [["1", "q1"]] (by decide),
   claim9_loader.2.2 ["question", "answer"] [["q1", "a1"]] (by decide) (by decide)⟩

end Claims
